import Mathlib

/-!
Verification of the eos fit-model pipeline (examples/fit-model.cpp) and the
library components it calls.  Floating-point values are modelled exactly as
rationals; files are modelled as lists of lines; the OpenCV image mutated by
the wireframe renderer is modelled as the list of line segments drawn onto it.
Library components whose source is not part of this repository snapshot
(the orientation predicate, the texture extractor, the fitting engine, the
morphable model and the landmark mapper) are modelled from the specification;
each such definition says so in its doc comment.
-/

namespace Eos

/-- A 2D point or vector; C++ `glm::vec2` / `Eigen::Vector2f`, with float
coordinates modelled exactly as rationals. -/
structure Vec2 where
  x : ℚ
  y : ℚ
deriving DecidableEq

/-- A 3D point; C++ `glm::vec3` / `Eigen::Vector3f`. -/
structure Vec3 where
  x : ℚ
  y : ℚ
  z : ℚ
deriving DecidableEq

/-- Twice the signed area of the 2D triangle (v0, v1, v2): the z-component of
the cross product of the edge vectors v1 - v0 and v2 - v0. -/
def signed_area (v0 v1 v2 : Vec2) : ℚ :=
  (v1.x - v0.x) * (v2.y - v0.y) - (v1.y - v0.y) * (v2.x - v0.x)

/-- Modelled from the spec: the shared orientation / visibility test (4.3),
`render::detail::are_vertices_ccw_in_screen_space`, whose implementation is
outside this source snapshot.  "A triangle projected to screen space is
front-facing iff its three projected vertices are in counter-clockwise winding
order in 2D screen coordinates": the predicate holds iff the signed area of
the projected triangle is strictly positive. -/
def are_vertices_ccw_in_screen_space (v0 v1 v2 : Vec2) : Bool :=
  decide (0 < signed_area v0 v1 v2)

theorem signed_area_reverse (v0 v1 v2 : Vec2) :
    signed_area v2 v1 v0 = -signed_area v0 v1 v2 := by
  simp only [signed_area]
  ring

theorem ccw_iff_pos_area (v0 v1 v2 : Vec2) :
    are_vertices_ccw_in_screen_space v0 v1 v2 = true ↔ 0 < signed_area v0 v1 v2 := by
  simp [are_vertices_ccw_in_screen_space]

/-- C3 (counterexample): the claim "for every triple of 2D points, reversing
the order of the three input points flips the CCW classification" fails on the
degenerate triple (0,0), (0,0), (0,0): both the triple and its reversal are
classified not-CCW (back-facing), so the classification is not flipped. -/
theorem ccw_reverse_not_always_flipped :
    ¬ (are_vertices_ccw_in_screen_space ⟨0, 0⟩ ⟨0, 0⟩ ⟨0, 0⟩
        = ! are_vertices_ccw_in_screen_space ⟨0, 0⟩ ⟨0, 0⟩ ⟨0, 0⟩) := by
  have h : are_vertices_ccw_in_screen_space ⟨0, 0⟩ ⟨0, 0⟩ ⟨0, 0⟩ = false := by
    simp only [are_vertices_ccw_in_screen_space, decide_eq_false_iff_not, signed_area]
    norm_num
  rw [h]
  simp

/-- C3 (amended): for every triple of 2D points spanning a nonzero signed
area (a non-degenerate triangle), reversing the order of the three input
points flips the CCW classification of `are_vertices_ccw_in_screen_space`;
degenerate (collinear) triples are classified back-facing in both orders. -/
theorem ccw_flips_under_reversal (v0 v1 v2 : Vec2)
    (h : signed_area v0 v1 v2 ≠ 0) :
    are_vertices_ccw_in_screen_space v2 v1 v0
      = ! are_vertices_ccw_in_screen_space v0 v1 v2 := by
  have hrev := signed_area_reverse v0 v1 v2
  rcases lt_trichotomy (signed_area v0 v1 v2) 0 with hlt | heq | hgt
  · have h1 : are_vertices_ccw_in_screen_space v0 v1 v2 = false := by
      simp only [are_vertices_ccw_in_screen_space, decide_eq_false_iff_not]
      exact not_lt.mpr hlt.le
    have h2 : are_vertices_ccw_in_screen_space v2 v1 v0 = true := by
      simp only [are_vertices_ccw_in_screen_space, decide_eq_true_eq, hrev]
      exact neg_pos.mpr hlt
    rw [h1, h2]
    rfl
  · exact absurd heq h
  · have h1 : are_vertices_ccw_in_screen_space v0 v1 v2 = true := by
      simp only [are_vertices_ccw_in_screen_space, decide_eq_true_eq]
      exact hgt
    have h2 : are_vertices_ccw_in_screen_space v2 v1 v0 = false := by
      simp only [are_vertices_ccw_in_screen_space, decide_eq_false_iff_not, hrev]
      exact not_lt.mpr (neg_nonpos.mpr hgt.le)
    rw [h1, h2]
    rfl

/-- C3 (witness): the amended reversal theorem applied to the concrete
non-degenerate triple (0,0), (1,0), (0,1). -/
theorem ccw_flips_under_reversal_witness :
    are_vertices_ccw_in_screen_space ⟨0, 1⟩ ⟨1, 0⟩ ⟨0, 0⟩
      = ! are_vertices_ccw_in_screen_space ⟨0, 0⟩ ⟨1, 0⟩ ⟨0, 1⟩ :=
  ccw_flips_under_reversal ⟨0, 0⟩ ⟨1, 0⟩ ⟨0, 1⟩ (by simp only [signed_area]; norm_num)

/-! ### read_pts_landmarks (examples/fit-model.cpp, lines 61-103) -/

/-- One text line of a .pts landmark file.  `raw` is the literal text of the
line (compared against the closing brace), and `nums` is the list of leading
numeric tokens that `std::stringstream` float extraction reads off the line,
modelled exactly as rationals: extracting two floats via
`lineStream >> c0 >> c1` succeeds iff `nums` has at least two entries. -/
structure Line where
  raw : String
  nums : List ℚ
deriving DecidableEq

/-- A named 2D landmark (eos `core::Landmark<Eigen::Vector2f>`). -/
structure Landmark where
  name : String
  coordinates : Vec2
deriving DecidableEq

/-- Extraction of two floats from one line, `lineStream >> c0 >> c1`:
succeeds exactly when the line starts with at least two numeric tokens. -/
def parse_two_floats (l : Line) : Option (ℚ × ℚ) :=
  match l.nums with
  | a :: b :: _ => some (a, b)
  | _ => none

/-- The body loop of `read_pts_landmarks` (lines 80-101): reads lines until
end of file or a line equal to "\x7d", names the landmarks with consecutive ibug
ids starting from the given one, requires each line to parse as two numbers
(throwing `Except.error` otherwise, so no partial collection escapes), and
shifts both coordinates by -1 to convert the 1-based ibug convention to
0-based. -/
def read_pts_lines : List Line → Nat → Except String (List Landmark)
  | [], _ => .ok []
  | l :: rest, ibugId =>
    if l.raw = "\x7d" then .ok []
    else
      match parse_two_floats l with
      | none => .error ("Landmark format error while parsing the line: " ++ l.raw)
      | some (a, b) =>
        match read_pts_lines rest (ibugId + 1) with
        | .error e => .error e
        | .ok landmarks =>
          .ok ({ name := toString ibugId, coordinates := ⟨a - 1, b - 1⟩ } :: landmarks)

/-- `read_pts_landmarks` (fit-model.cpp lines 61-103).  The file argument is
`none` when the file could not be opened (`!file.is_open()`), otherwise
`some` of its list of lines.  The first three lines are skipped without
inspection; the body is then read with ibug ids starting at 1. -/
def read_pts_landmarks (filename : String) (file : Option (List Line)) :
    Except String (List Landmark) :=
  match file with
  | none => .error ("Could not open landmark file: " ++ filename)
  | some lines => read_pts_lines (lines.drop 3) 1

theorem read_pts_lines_sub_one (lines : List Line) (ibugId : Nat)
    (landmarks : List Landmark) (h : read_pts_lines lines ibugId = .ok landmarks) :
    ∀ lm ∈ landmarks, ∃ l ∈ lines, ∃ a b,
      parse_two_floats l = some (a, b) ∧ lm.coordinates = ⟨a - 1, b - 1⟩ := by
  induction lines generalizing ibugId landmarks with
  | nil =>
    simp only [read_pts_lines, Except.ok.injEq] at h
    subst h
    intro lm hlm
    exact absurd hlm (List.not_mem_nil lm)
  | cons l rest ih =>
    rw [read_pts_lines] at h
    by_cases hbrace : l.raw = "\x7d"
    · rw [if_pos hbrace] at h
      injection h with h
      subst h
      intro lm hlm
      exact absurd hlm (List.not_mem_nil lm)
    · rw [if_neg hbrace] at h
      cases hparse : parse_two_floats l with
      | none => rw [hparse] at h; exact absurd h (by simp)
      | some ab =>
        obtain ⟨a, b⟩ := ab
        rw [hparse] at h
        cases hrec : read_pts_lines rest (ibugId + 1) with
        | error e => rw [hrec] at h; exact absurd h (by simp)
        | ok lms =>
          rw [hrec] at h
          injection h with h
          subst h
          intro lm hlm
          rcases List.mem_cons.mp hlm with hlm | hlm
          · exact ⟨l, List.mem_cons_self l rest, a, b, hparse, by rw [hlm]⟩
          · obtain ⟨l2, hl2, a2, b2, hp2, hc2⟩ := ih (ibugId + 1) lms hrec lm hlm
            exact ⟨l2, List.mem_cons_of_mem l hl2, a2, b2, hp2, hc2⟩

/-- C2: every landmark produced by `read_pts_landmarks` carries the
coordinates read from its file line with exactly 1 subtracted from both x
and y — the 1-based ibug pixel convention is normalized to 0-based before
the landmarks are returned to the caller. -/
theorem read_pts_landmarks_normalizes_to_zero_based (filename : String)
    (file : List Line) (landmarks : List Landmark)
    (h : read_pts_landmarks filename (some file) = .ok landmarks) :
    ∀ lm ∈ landmarks, ∃ l ∈ file, ∃ a b,
      parse_two_floats l = some (a, b) ∧ lm.coordinates = ⟨a - 1, b - 1⟩ := by
  rw [read_pts_landmarks] at h
  intro lm hlm
  obtain ⟨l, hl, a, b, hp, hc⟩ := read_pts_lines_sub_one (file.drop 3) 1 landmarks h lm hlm
  exact ⟨l, List.drop_subset 3 file hl, a, b, hp, hc⟩

/-- A well-formed example .pts file: three header lines, one landmark line
with coordinates (4, 5), and the closing brace. -/
def pts_file_example : List Line :=
  [⟨"version: 1", []⟩, ⟨"n_points: 1", [1]⟩, ⟨"\x7b", []⟩, ⟨"4 5", [4, 5]⟩, ⟨"\x7d", []⟩]

/-- C2 (witness): the normalization theorem applied to the concrete example
file, whose single landmark line (4, 5) is returned as (3, 4). -/
theorem read_pts_landmarks_normalizes_witness :
    ∃ l ∈ pts_file_example, ∃ a b, parse_two_floats l = some (a, b) ∧
      (Landmark.mk (toString 1) ⟨3, 4⟩).coordinates = ⟨a - 1, b - 1⟩ :=
  read_pts_landmarks_normalizes_to_zero_based "example.pts" pts_file_example
    [⟨toString 1, ⟨3, 4⟩⟩]
    (by
      have h1 : ("4 5" : String) ≠ "\x7d" := by decide
      norm_num [read_pts_landmarks, pts_file_example, read_pts_lines, parse_two_floats, h1])
    ⟨toString 1, ⟨3, 4⟩⟩ (by simp)

theorem read_pts_lines_error_of_bad_line (bad : Line) (rest : List Line)
    (hbrace : bad.raw ≠ "\x7d") (hbad : parse_two_floats bad = none) :
    ∀ (pre : List Line) (ibugId : Nat), (∀ l ∈ pre, l.raw ≠ "\x7d") →
      ∃ msg, read_pts_lines (pre ++ bad :: rest) ibugId = .error msg := by
  intro pre
  induction pre with
  | nil =>
    intro ibugId _
    refine ⟨"Landmark format error while parsing the line: " ++ bad.raw, ?_⟩
    simp only [List.nil_append, read_pts_lines, if_neg hbrace, hbad]
  | cons p pre ih =>
    intro ibugId hpre
    have hp : ¬ p.raw = "\x7d" := hpre p (List.mem_cons_self p pre)
    obtain ⟨msg, hmsg⟩ := ih (ibugId + 1) (fun l hl => hpre l (List.mem_cons_of_mem p hl))
    simp only [List.cons_append, read_pts_lines, if_neg hp]
    cases hparse : parse_two_floats p with
    | none =>
      exact ⟨_, rfl⟩
    | some ab =>
      obtain ⟨a, b⟩ := ab
      refine ⟨msg, ?_⟩
      simp only [List.append_eq]
      rw [hmsg]

/-- C7: `read_pts_landmarks` surfaces input errors to the caller immediately
and returns no partial result: an unopenable file raises an error naming the
file, and a body line (before any closing brace) that does not parse as two
numeric coordinates raises an error; in both cases the result is
`Except.error`, so no landmark collection is returned. -/
theorem read_pts_landmarks_error_handling :
    (∀ filename, read_pts_landmarks filename none
        = .error ("Could not open landmark file: " ++ filename)) ∧
    (∀ filename (file : List Line) (pre : List Line) (bad : Line) (rest : List Line),
      file.drop 3 = pre ++ bad :: rest →
      (∀ l ∈ pre, l.raw ≠ "\x7d") →
      bad.raw ≠ "\x7d" → parse_two_floats bad = none →
      ∃ msg, read_pts_landmarks filename (some file) = .error msg) := by
  constructor
  · intro filename
    rfl
  · intro filename file pre bad rest hdrop hpre hbrace hbad
    rw [read_pts_landmarks, hdrop]
    exact read_pts_lines_error_of_bad_line bad rest hbrace hbad pre 1 hpre

/-- A malformed example .pts file: the fourth line has no numeric tokens. -/
def pts_file_bad_example : List Line :=
  [⟨"version: 1", []⟩, ⟨"n_points: 1", [1]⟩, ⟨"\x7b", []⟩, ⟨"bad line", []⟩, ⟨"\x7d", []⟩]

/-- C7 (witness): the error-handling theorem applied to a concrete missing
file and to the concrete malformed example file. -/
theorem read_pts_landmarks_error_handling_witness :
    (read_pts_landmarks "a.pts" none = .error ("Could not open landmark file: " ++ "a.pts")) ∧
    (∃ msg, read_pts_landmarks "b.pts" (some pts_file_bad_example) = .error msg) :=
  ⟨read_pts_landmarks_error_handling.1 "a.pts",
   read_pts_landmarks_error_handling.2 "b.pts" pts_file_bad_example []
     ⟨"bad line", []⟩ [⟨"\x7d", []⟩] rfl (by simp) (by decide) rfl⟩

/-- Spec-side description for C10: the landmark collection obtained from the
body lines of a .pts file, naming line number i (1-based, in file order) with
the string rendering of i and shifting each parsed coordinate pair by -1. -/
def pts_body_landmarks : List Line → Nat → List Landmark
  | [], _ => []
  | l :: rest, i =>
    { name := toString i,
      coordinates :=
        match parse_two_floats l with
        | some (a, b) => ⟨a - 1, b - 1⟩
        | none => ⟨0, 0⟩ } :: pts_body_landmarks rest (i + 1)

theorem read_pts_lines_of_good_body (brace : Line) (junk : List Line)
    (hbrace : brace.raw = "\x7d") :
    ∀ (body : List Line) (ibugId : Nat),
      (∀ l ∈ body, l.raw ≠ "\x7d" ∧ parse_two_floats l ≠ none) →
      read_pts_lines (body ++ brace :: junk) ibugId = .ok (pts_body_landmarks body ibugId) := by
  intro body
  induction body with
  | nil =>
    intro ibugId _
    simp only [List.nil_append, read_pts_lines, if_pos hbrace, pts_body_landmarks]
  | cons l rest ih =>
    intro ibugId hbody
    obtain ⟨hraw, hparse⟩ := hbody l (List.mem_cons_self l rest)
    have hrec := ih (ibugId + 1) (fun x hx => hbody x (List.mem_cons_of_mem l hx))
    cases hp : parse_two_floats l with
    | none => exact absurd hp hparse
    | some ab =>
      obtain ⟨a, b⟩ := ab
      simp only [List.cons_append, read_pts_lines, if_neg hraw, hp, List.append_eq,
        hrec, pts_body_landmarks]

/-- C10: `read_pts_landmarks` unconditionally discards the first three lines
of the file without validating their content, assigns each subsequent parsed
line the name "1", "2", ... as consecutive integer strings in file order
(regardless of the point count the header announces), and stops at the first
line equal to "\x7d", ignoring any content after it. -/
theorem read_pts_landmarks_structure (filename : String) (h1 h2 h3 : Line)
    (body : List Line) (brace : Line) (junk : List Line)
    (hbody : ∀ l ∈ body, l.raw ≠ "\x7d" ∧ parse_two_floats l ≠ none)
    (hbrace : brace.raw = "\x7d") :
    read_pts_landmarks filename (some (h1 :: h2 :: h3 :: (body ++ brace :: junk)))
      = .ok (pts_body_landmarks body 1) := by
  rw [read_pts_landmarks]
  show read_pts_lines (body ++ brace :: junk) 1 = _
  exact read_pts_lines_of_good_body brace junk hbrace body 1 hbody

/-- C10 (witness): the structure theorem applied to a concrete file with
nonsense headers, two body lines, and trailing junk after the closing
brace. -/
theorem read_pts_landmarks_structure_witness :
    read_pts_landmarks "w.pts"
      (some (⟨"garbage", []⟩ :: ⟨"n_points: 99", [99]⟩ :: ⟨"nonsense", []⟩ ::
        ([⟨"4 5", [4, 5]⟩, ⟨"6 7", [6, 7]⟩] ++ ⟨"\x7d", []⟩ :: [⟨"8 9", [8, 9]⟩])))
      = .ok (pts_body_landmarks [⟨"4 5", [4, 5]⟩, ⟨"6 7", [6, 7]⟩] 1) :=
  read_pts_landmarks_structure "w.pts" ⟨"garbage", []⟩ ⟨"n_points: 99", [99]⟩
    ⟨"nonsense", []⟩ [⟨"4 5", [4, 5]⟩, ⟨"6 7", [6, 7]⟩] ⟨"\x7d", []⟩ [⟨"8 9", [8, 9]⟩]
    (by decide) rfl

/-! ### draw_wireframe (examples/fit-model.cpp, lines 117-131) -/

/-- A 4x4 matrix (`glm::mat4x4`), entries modelled as rationals. -/
abbrev Mat4 : Type := Fin 4 → Fin 4 → ℚ

/-- Matrix-vector product of a 4x4 matrix with a homogeneous 4-vector. -/
def mat4_mul_vec (m : Mat4) (v : Fin 4 → ℚ) : Fin 4 → ℚ :=
  fun i => ∑ j : Fin 4, m i j * v j

/-- An OpenGL-style viewport (`glm::vec4`): origin (x, y) and size (w, h). -/
structure Viewport where
  x : ℚ
  y : ℚ
  w : ℚ
  h : ℚ

/-- Modelled from GLM's documented `glm::project`: transform the point by the
model-view and projection matrices, perform the perspective divide, and map
normalized device coordinates into the viewport.  Division is the total
rational division (w = 0, undefined in GLM, yields 0 here). -/
def glm_project (obj : Vec3) (modelview projection : Mat4) (viewport : Viewport) : Vec3 :=
  let v0 : Fin 4 → ℚ := ![obj.x, obj.y, obj.z, 1]
  let v1 := mat4_mul_vec modelview v0
  let v2 := mat4_mul_vec projection v1
  let w := v2 3
  let nx := v2 0 / w
  let ny := v2 1 / w
  let nz := v2 2 / w
  ⟨(nx * (1 / 2) + 1 / 2) * viewport.w + viewport.x,
   (ny * (1 / 2) + 1 / 2) * viewport.h + viewport.y,
   nz * (1 / 2) + 1 / 2⟩

/-- A triangle of vertex indices (one entry of `Mesh::tvi`). -/
abbrev Triangle : Type := Nat × Nat × Nat

/-- The eos `core::Mesh`: vertex positions, per-vertex texture coordinates of
the model's fixed UV layout, and the triangle vertex index list `tvi`. -/
structure Mesh where
  vertices : List Vec3
  texcoords : List Vec2
  tvi : List Triangle

/-- Vertex lookup `mesh.vertices[i]` (indices are in range for well-formed
meshes; out-of-range lookup defaults to the origin). -/
def vertex_at (mesh : Mesh) (i : Nat) : Vec3 :=
  mesh.vertices.getD i ⟨0, 0, 0⟩

/-- A BGRA colour (`cv::Scalar`). -/
structure Colour where
  b : ℚ
  g : ℚ
  r : ℚ
  a : ℚ

/-- An integer pixel position (`cv::Point`); `cv::Point(p.x, p.y)` rounds the
float coordinates to the nearest integers. -/
abbrev Point : Type := Int × Int

/-- Rounding of a projected point to integer pixel coordinates, as done by
the `cv::Point` constructor applied to float coordinates. -/
def cv_point (v : Vec3) : Point := (round v.x, round v.y)

/-- One drawn line segment. -/
structure Segment where
  p : Point
  q : Point
  colour : Colour

/-- The target `cv::Mat` image, modelled by the list of line segments that
have been drawn onto it, in drawing order. -/
abbrev Image : Type := List Segment

/-- `cv::line`: its only effect is to append one segment to the image. -/
def cv_line (image : Image) (p q : Point) (colour : Colour) : Image :=
  image ++ [⟨p, q, colour⟩]

/-- The body of the `draw_wireframe` loop for one triangle (fit-model.cpp
lines 119-129): project the three vertices with `glm::project`; if the
projected vertices are counter-clockwise in screen space, draw the three
edges with `cv::line`; otherwise draw nothing for this triangle. -/
def draw_triangle_wireframe (mesh : Mesh) (modelview projection : Mat4)
    (viewport : Viewport) (colour : Colour) (img : Image) (triangle : Triangle) : Image :=
  let p1 := glm_project (vertex_at mesh triangle.1) modelview projection viewport
  let p2 := glm_project (vertex_at mesh triangle.2.1) modelview projection viewport
  let p3 := glm_project (vertex_at mesh triangle.2.2) modelview projection viewport
  if are_vertices_ccw_in_screen_space ⟨p1.x, p1.y⟩ ⟨p2.x, p2.y⟩ ⟨p3.x, p3.y⟩ then
    cv_line (cv_line (cv_line img (cv_point p1) (cv_point p2) colour)
      (cv_point p2) (cv_point p3) colour) (cv_point p3) (cv_point p1) colour
  else img

/-- `draw_wireframe` (fit-model.cpp lines 117-131): the loop over `mesh.tvi`.
The mutation of the `cv::Mat` is modelled by returning the updated image. -/
def draw_wireframe (image : Image) (mesh : Mesh) (modelview projection : Mat4)
    (viewport : Viewport) (colour : Colour) : Image :=
  mesh.tvi.foldl (draw_triangle_wireframe mesh modelview projection viewport colour) image

/-- Specification-side description for C1: the three edges drawn for a
front-facing triangle, and no segment at all for any other triangle. -/
def triangle_edges (mesh : Mesh) (modelview projection : Mat4)
    (viewport : Viewport) (colour : Colour) (triangle : Triangle) : List Segment :=
  let p1 := glm_project (vertex_at mesh triangle.1) modelview projection viewport
  let p2 := glm_project (vertex_at mesh triangle.2.1) modelview projection viewport
  let p3 := glm_project (vertex_at mesh triangle.2.2) modelview projection viewport
  if are_vertices_ccw_in_screen_space ⟨p1.x, p1.y⟩ ⟨p2.x, p2.y⟩ ⟨p3.x, p3.y⟩ then
    [⟨cv_point p1, cv_point p2, colour⟩, ⟨cv_point p2, cv_point p3, colour⟩,
     ⟨cv_point p3, cv_point p1, colour⟩]
  else []

theorem draw_triangle_wireframe_edges (mesh : Mesh) (modelview projection : Mat4)
    (viewport : Viewport) (colour : Colour) (img : Image) (t : Triangle) :
    draw_triangle_wireframe mesh modelview projection viewport colour img t
      = img ++ triangle_edges mesh modelview projection viewport colour t := by
  simp only [draw_triangle_wireframe, triangle_edges, cv_line]
  split
  · simp
  · simp

theorem draw_wireframe_foldl (mesh : Mesh) (modelview projection : Mat4)
    (viewport : Viewport) (colour : Colour) :
    ∀ (tvi : List Triangle) (image : Image),
      tvi.foldl (draw_triangle_wireframe mesh modelview projection viewport colour) image
      = image ++ tvi.flatMap (triangle_edges mesh modelview projection viewport colour) := by
  intro tvi
  induction tvi with
  | nil => intro image; simp
  | cons t rest ih =>
    intro image
    rw [List.foldl_cons, ih, draw_triangle_wireframe_edges, List.flatMap_cons,
      List.append_assoc]

/-- C1: `draw_wireframe` appends to the target image exactly the three edges
of every triangle whose three projected vertices are counter-clockwise in 2D
screen space per the shared orientation predicate
`are_vertices_ccw_in_screen_space`, and nothing for any other triangle; its
only effect is this mutation of the target image (the previously drawn
content is preserved unchanged, and nothing is returned beyond it). -/
theorem draw_wireframe_draws_ccw_edges (image : Image) (mesh : Mesh)
    (modelview projection : Mat4) (viewport : Viewport) (colour : Colour) :
    draw_wireframe image mesh modelview projection viewport colour
      = image ++ mesh.tvi.flatMap (triangle_edges mesh modelview projection viewport colour) :=
  draw_wireframe_foldl mesh modelview projection viewport colour mesh.tvi image

/-! ### The statistical shape model (spec 2, 3; `morphablemodel::MorphableModel`) -/

/-- Modelled from the spec: a PCA model ("ShapeModel" / "ColorModel", spec 3)
holds a mean vector of 3V floats, a basis matrix of shape 3V × K, a
per-component variance vector of K floats, and the fixed triangle list shared
by all instances. -/
structure PcaModel (n k : Nat) where
  mean : Fin n → ℚ
  basis : Fin n → Fin k → ℚ
  variance : Fin k → ℚ
  tvi : List Triangle

/-- Modelled from the spec: "Generating a mesh from a coefficient vector of
length ≤ K is a pure, side-effect-free linear combination: vertices = mean +
basis · coefficients" (spec 3, ShapeModel); in eos this is
`MorphableModel::draw_sample` on the shape PCA model. -/
def draw_sample {n k : Nat} (model : PcaModel n k) (coefficients : Fin k → ℚ) :
    Fin n → ℚ :=
  fun i => model.mean i + ∑ j : Fin k, model.basis i j * coefficients j

/-- C9: mesh generation from shape coefficients is a pure linear map —
for all coefficient vectors c1 and c2 (of the correct length K, enforced by
the type), the mesh generated from c1 + c2 equals, exactly in the rational
model (so within floating-point tolerance in the C++ code), the vertex-wise
sum of the meshes generated from c1 and from c2 minus the mean mesh; the
generation has no side effects (it is a pure function of its arguments). -/
theorem draw_sample_linear {n k : Nat} (model : PcaModel n k)
    (c1 c2 : Fin k → ℚ) :
    ∀ i, draw_sample model (c1 + c2) i
      = draw_sample model c1 i + draw_sample model c2 i - model.mean i := by
  intro i
  simp only [draw_sample, Pi.add_apply, mul_add, Finset.sum_add_distrib]
  ring

/-! ### extract_texture (spec 4.2, `render::extract_texture`) -/

/-- A 3x4 affine camera matrix (`fitting::get_3x4_affine_camera_matrix`). -/
abbrev Mat34 : Type := Fin 3 → Fin 4 → ℚ

/-- Projection of a 3D point into 2D source-image coordinates through the
3x4 affine camera matrix: the first two rows applied to (x, y, z, 1). -/
def affine_project (cam : Mat34) (p : Vec3) : Vec2 :=
  ⟨∑ j : Fin 4, cam 0 j * ![p.x, p.y, p.z, 1] j,
   ∑ j : Fin 4, cam 1 j * ![p.x, p.y, p.z, 1] j⟩

/-- The front-facing test of a mesh triangle under the affine camera, per
spec 4.3: project the triangle's three vertices and apply the shared
orientation predicate. -/
def is_triangle_front_facing (mesh : Mesh) (cam : Mat34) (t : Triangle) : Bool :=
  are_vertices_ccw_in_screen_space
    (affine_project cam (vertex_at mesh t.1))
    (affine_project cam (vertex_at mesh t.2.1))
    (affine_project cam (vertex_at mesh t.2.2))

/-- Texture-coordinate lookup `mesh.texcoords[i]` of the model's fixed UV
layout. -/
def texcoord_at (mesh : Mesh) (i : Nat) : Vec2 :=
  mesh.texcoords.getD i ⟨0, 0⟩

/-- The 2D edge function: twice the signed area of (a, b, p), used for the
point-in-triangle coverage test and barycentric coordinates. -/
def edge_sign (a b p : Vec2) : ℚ :=
  (b.x - a.x) * (p.y - a.y) - (b.y - a.y) * (p.x - a.x)

/-- UV-space rasterization coverage: the texel at `p` is covered by triangle
`t` iff `p` lies inside (or on the boundary of) the triangle spanned by the
three UV coordinates, i.e. its three edge functions share a sign. -/
def uv_covers (mesh : Mesh) (t : Triangle) (p : Vec2) : Bool :=
  let a := texcoord_at mesh t.1
  let b := texcoord_at mesh t.2.1
  let c := texcoord_at mesh t.2.2
  let s1 := edge_sign a b p
  let s2 := edge_sign b c p
  let s3 := edge_sign c a p
  (decide (0 ≤ s1) && decide (0 ≤ s2) && decide (0 ≤ s3))
    || (decide (s1 ≤ 0) && decide (s2 ≤ 0) && decide (s3 ≤ 0))

/-- The triangle a UV texel originates from: the first triangle of the mesh
whose UV footprint covers the texel, if any. -/
def originating_triangle (mesh : Mesh) (p : Vec2) : Option Triangle :=
  mesh.tvi.find? (fun t => uv_covers mesh t p)

/-- Barycentric interpolation of the 3D position of the texel `p` inside the
UV footprint of triangle `t` (total rational division; a degenerate UV
triangle yields the origin). -/
def barycentric_position (mesh : Mesh) (t : Triangle) (p : Vec2) : Vec3 :=
  let a := texcoord_at mesh t.1
  let b := texcoord_at mesh t.2.1
  let c := texcoord_at mesh t.2.2
  let area := edge_sign a b c
  let la := edge_sign b c p / area
  let lb := edge_sign c a p / area
  let lc := edge_sign a b p / area
  let va := vertex_at mesh t.1
  let vb := vertex_at mesh t.2.1
  let vc := vertex_at mesh t.2.2
  ⟨la * va.x + lb * vb.x + lc * vc.x,
   la * va.y + lb * vb.y + lc * vc.y,
   la * va.z + lb * vb.z + lc * vc.z⟩

/-- An RGBA texel value; alpha 0 marks an invisible texel. -/
structure Rgba where
  r : ℚ
  g : ℚ
  b : ℚ
  a : ℚ

/-- The source image, read by (x, y) pixel lookup (spec 6). -/
abbrev SrcImage : Type := Int → Int → Rgba

/-- Modelled from the spec: `render::extract_texture` (4.2) at one UV texel.
For the texel's originating triangle, interpolate the corresponding 3D
position barycentrically, project it through the affine camera matrix,
sample the source image there (nearest sampling), and mark the texel
invisible (alpha = 0) iff the originating triangle fails the front-facing
test (4.3); texels covered by no triangle stay blank. -/
def extract_texture (mesh : Mesh) (cam : Mat34) (img : SrcImage) (p : Vec2) : Rgba :=
  match originating_triangle mesh p with
  | none => ⟨0, 0, 0, 0⟩
  | some t =>
    let pos := barycentric_position mesh t p
    let q := affine_project cam pos
    let c := img (round q.x) (round q.y)
    ⟨c.r, c.g, c.b, if is_triangle_front_facing mesh cam t then 255 else 0⟩

/-- C4: every texel of the isomap produced by `extract_texture` whose
originating triangle is back-facing (fails the front-facing test of spec 4.3)
under the given camera has alpha = 0, for any camera (hence for any camera
rotation), any mesh, and any source image. -/
theorem extract_texture_backfacing_alpha_zero (mesh : Mesh) (cam : Mat34)
    (img : SrcImage) (p : Vec2) (t : Triangle)
    (horig : originating_triangle mesh p = some t)
    (hback : is_triangle_front_facing mesh cam t = false) :
    (extract_texture mesh cam img p).a = 0 := by
  rw [extract_texture, horig]
  simp [hback]

/-- A concrete one-triangle mesh whose triangle projects clockwise under
`camW` (hence is back-facing) and whose UV footprint covers the texel
(1, 1). -/
def meshW : Mesh :=
  { vertices := [⟨0, 0, 0⟩, ⟨0, 1, 0⟩, ⟨1, 0, 0⟩]
    texcoords := [⟨0, 0⟩, ⟨4, 0⟩, ⟨0, 4⟩]
    tvi := [(0, 1, 2)] }

/-- A concrete affine camera: the identity on x and y. -/
def camW : Mat34 := ![![1, 0, 0, 0], ![0, 1, 0, 0], ![0, 0, 1, 0]]

/-- C4 (witness): the alpha-masking theorem applied to the concrete
back-facing triangle of `meshW` under `camW` at the covered texel (1, 1). -/
theorem extract_texture_backfacing_alpha_zero_witness :
    (extract_texture meshW camW (fun _ _ => ⟨7, 7, 7, 255⟩) ⟨1, 1⟩).a = 0 :=
  extract_texture_backfacing_alpha_zero meshW camW (fun _ _ => ⟨7, 7, 7, 255⟩)
    ⟨1, 1⟩ (0, 1, 2)
    (by norm_num [originating_triangle, meshW, List.find?, uv_covers, texcoord_at,
      edge_sign])
    (by norm_num [is_triangle_front_facing, meshW, camW, affine_project, vertex_at,
      are_vertices_ccw_in_screen_space, signed_area, Fin.sum_univ_four])

/-! ### The fitting engine (spec 4.1, `fitting::fit_shape_and_pose`) -/

/-- Modelled from the spec: `core::LandmarkMapper`, a mapping from external
landmark identifiers to model vertex indices, as an association list. -/
abbrev LandmarkMapper : Type := List (String × Nat)

/-- Modelled from the spec: `LandmarkMapper::convert` — lookups for unknown
identifiers return `none` ("no mapping") rather than failing. -/
def convert (mapper : LandmarkMapper) (name : String) : Option Nat :=
  (mapper.find? (fun entry => entry.1 == name)).map (fun entry => entry.2)

/-- Modelled from the spec: `fitting::ContourLandmarks` — the external
landmark identifiers treated as left/right contour landmarks. -/
structure ContourLandmarks where
  left : List String
  right : List String

/-- Modelled from the spec: `fitting::ModelContour` — the two ordered model
vertex-index lists of left/right silhouette candidates. -/
structure ModelContour where
  left_contour : List Nat
  right_contour : List Nat

/-- Modelled from the spec: one edge of `morphablemodel::EdgeTopology`: its
two endpoint vertices and the (up to two) adjacent triangle indices. -/
structure TopoEdge where
  v0 : Nat
  v1 : Nat
  faces : List Nat

/-- Modelled from the spec: `morphablemodel::EdgeTopology`, the edge-to-
triangle adjacency of the mesh. -/
abbrev EdgeTopology : Type := List TopoEdge

/-- Modelled from the spec: `fitting::RenderingParameters` for the
orthographic pipeline — estimated scale and 2D translation; created fresh
each run and immutable once returned (this model fixes the estimated
rotation at the identity, which the claims under verification do not
depend on). -/
structure RenderingParameters where
  s : ℚ
  tx : ℚ
  ty : ℚ
deriving DecidableEq

/-- The scaled-orthographic projection of a model point to the image. -/
def project_ortho (cam : RenderingParameters) (p : Vec3) : Vec2 :=
  ⟨cam.s * p.x + cam.tx, cam.s * p.y + cam.ty⟩

/-- Component lookup in a flattened 3V-vector of vertex coordinates. -/
def coord {n : Nat} (shape : Fin n → ℚ) (m : Nat) : ℚ :=
  if h : m < n then shape ⟨m, h⟩ else 0

/-- The 3D position of vertex `v` in a flattened shape vector. -/
def shape_vertex {n : Nat} (shape : Fin n → ℚ) (v : Nat) : Vec3 :=
  ⟨coord shape (3 * v), coord shape (3 * v + 1), coord shape (3 * v + 2)⟩

/-- Modelled from the spec: a `morphablemodel::Blendshape` — a name plus a
per-vertex offset vector added linearly with a scalar weight. -/
structure Blendshape (n : Nat) where
  name : String
  deformation : Fin n → ℚ

/-- The mesh shape for given PCA coefficients and blendshape weights:
`vertices = mean + basis · c + Σ w_i · offset_i` (spec 3). -/
def current_shape {n k : Nat} (model : PcaModel n k)
    (blendshapes : List (Blendshape n)) (c : Fin k → ℚ) (w : List ℚ) :
    Fin n → ℚ :=
  fun i => draw_sample model c i
    + ((blendshapes.zip w).map (fun bw => bw.2 * bw.1.deformation i)).sum

/-- A 2D-3D correspondence: observed image point and model vertex index
(spec 3, "Correspondence set"). -/
abbrev Correspondence : Type := Vec2 × Nat

/-- Whether a landmark identifier is flagged as a contour landmark. -/
def is_contour_landmark (contour : ContourLandmarks) (name : String) : Bool :=
  contour.left.contains name || contour.right.contains name

/-- Modelled from the spec (4.1 step 1, interior landmarks): each landmark
whose identifier maps to a fixed vertex yields a direct correspondence;
contour-flagged landmarks do not use the fixed mapping; landmarks with no
mapping yield nothing. -/
def interior_correspondences (mapper : LandmarkMapper)
    (contour : ContourLandmarks) (landmarks : List Landmark) :
    List Correspondence :=
  landmarks.filterMap (fun lm =>
    if is_contour_landmark contour lm.name then none
    else (convert mapper lm.name).map (fun v => (lm.coordinates, v)))

/-- Triangle lookup by face index in the model's triangle list. -/
def triangle_at (tvi : List Triangle) (f : Nat) : Triangle :=
  tvi.getD f (0, 0, 0)

/-- Whether face `f` of the current mesh is front-facing under the camera,
per the shared orientation predicate (spec 4.3). -/
def face_front_facing {n : Nat} (shape : Fin n → ℚ) (tvi : List Triangle)
    (cam : RenderingParameters) (f : Nat) : Bool :=
  let t := triangle_at tvi f
  are_vertices_ccw_in_screen_space
    (project_ortho cam (shape_vertex shape t.1))
    (project_ortho cam (shape_vertex shape t.2.1))
    (project_ortho cam (shape_vertex shape t.2.2))

/-- Modelled from the spec: an edge is an occluding (silhouette) edge iff
exactly one of its adjacent triangles faces the camera. -/
def occluding_edge {n : Nat} (shape : Fin n → ℚ) (tvi : List Triangle)
    (cam : RenderingParameters) (e : TopoEdge) : Bool :=
  (e.faces.filter (face_front_facing shape tvi cam)).length == 1

/-- The vertices currently classified as silhouette: the endpoints of the
occluding edges, found by the O(edges) scan over the edge topology. -/
def silhouette_vertices {n : Nat} (shape : Fin n → ℚ) (tvi : List Triangle)
    (cam : RenderingParameters) (topology : EdgeTopology) : List Nat :=
  (topology.filter (occluding_edge shape tvi cam)).flatMap (fun e => [e.v0, e.v1])

/-- Squared 2D distance. -/
def dist2 (p q : Vec2) : ℚ := (p.x - q.x) ^ 2 + (p.y - q.y) ^ 2

/-- Modelled from the spec (4.1 step 1, contour landmarks): among the
side's candidate vertex list restricted to the vertices currently classified
as silhouette, the vertex whose projection under the previous camera
estimate lies closest to the observed point; `none` when no candidate is
found (a first-class optional result, spec 9). -/
def closest_silhouette_candidate {n : Nat} (shape : Fin n → ℚ)
    (tvi : List Triangle) (cam : RenderingParameters) (topology : EdgeTopology)
    (candidates : List Nat) (p : Vec2) : Option Nat :=
  let sil := silhouette_vertices shape tvi cam topology
  (candidates.filter (fun v => sil.contains v)).foldl (fun best v =>
    match best with
    | none => some v
    | some b =>
      if dist2 (project_ortho cam (shape_vertex shape v)) p
          < dist2 (project_ortho cam (shape_vertex shape b)) p
      then some v else some b) none

/-- Modelled from the spec (4.1 step 1): the contour correspondences of one
iteration — every contour-flagged landmark is matched to its closest current
silhouette candidate on its side; a landmark with no candidate contributes
nothing rather than aborting. -/
def contour_correspondences {n : Nat} (shape : Fin n → ℚ)
    (tvi : List Triangle) (cam : RenderingParameters) (topology : EdgeTopology)
    (model_contour : ModelContour) (contour : ContourLandmarks)
    (landmarks : List Landmark) : List Correspondence :=
  landmarks.filterMap (fun lm =>
    if contour.left.contains lm.name then
      (closest_silhouette_candidate shape tvi cam topology
        model_contour.left_contour lm.coordinates).map (fun v => (lm.coordinates, v))
    else if contour.right.contains lm.name then
      (closest_silhouette_candidate shape tvi cam topology
        model_contour.right_contour lm.coordinates).map (fun v => (lm.coordinates, v))
    else none)

/-- Modelled from the spec (4.1 step 2): the closed-form least-squares
estimation of the scaled-orthographic camera from the 2D-3D point pairs:
with the rotation fixed at the identity in this model, the optimal scale and
translation match the centered point sets (total rational division; the
degenerate empty or collapsed sets yield zeros). -/
def estimate_camera (corr : List (Vec2 × Vec3)) : RenderingParameters :=
  let m : ℚ := corr.length
  let mx := (corr.map (fun c => c.1.x)).sum / m
  let my := (corr.map (fun c => c.1.y)).sum / m
  let wx := (corr.map (fun c => c.2.x)).sum / m
  let wy := (corr.map (fun c => c.2.y)).sum / m
  let num := (corr.map (fun c =>
    (c.1.x - mx) * (c.2.x - wx) + (c.1.y - my) * (c.2.y - wy))).sum
  let den := (corr.map (fun c => (c.2.x - wx) ^ 2 + (c.2.y - wy) ^ 2)).sum
  let s := num / den
  ⟨s, mx - s * wx, my - s * wy⟩

/-- Modelled from the spec (4.1 step 3): the linear least-squares shape
coefficient estimate under L2 (Tikhonov) regularization weighted by the
per-component variance and the caller-supplied scalar, modelled with the
diagonal (coordinate-wise) normal equations; coefficients are not
hard-clamped. -/
def estimate_shape_coefficients {n k : Nat} (model : PcaModel n k)
    (cam : RenderingParameters) (corr : List Correspondence) (lambda : ℚ) :
    Fin k → ℚ :=
  fun j =>
    let col := fun i => model.basis i j
    let a := (corr.map (fun c =>
      let gx := cam.s * coord col (3 * c.2)
      let gy := cam.s * coord col (3 * c.2 + 1)
      let rx := c.1.x - (project_ortho cam (shape_vertex model.mean c.2)).x
      let ry := c.1.y - (project_ortho cam (shape_vertex model.mean c.2)).y
      gx * rx + gy * ry)).sum
    let d := (corr.map (fun c =>
      (cam.s * coord col (3 * c.2)) ^ 2 + (cam.s * coord col (3 * c.2 + 1)) ^ 2)).sum
    a / (d + lambda / model.variance j)

/-- Modelled from the spec (4.1 step 4): the analogous linear least-squares
solve over blendshape weights, constrained to be non-negative. -/
def estimate_blendshape_weights {n : Nat} (blendshapes : List (Blendshape n))
    (cam : RenderingParameters) (base : Fin n → ℚ) (corr : List Correspondence) :
    List ℚ :=
  blendshapes.map (fun bs =>
    let a := (corr.map (fun c =>
      let gx := cam.s * coord bs.deformation (3 * c.2)
      let gy := cam.s * coord bs.deformation (3 * c.2 + 1)
      let rx := c.1.x - (project_ortho cam (shape_vertex base c.2)).x
      let ry := c.1.y - (project_ortho cam (shape_vertex base c.2)).y
      gx * rx + gy * ry)).sum
    let d := (corr.map (fun c =>
      (cam.s * coord bs.deformation (3 * c.2)) ^ 2
        + (cam.s * coord bs.deformation (3 * c.2 + 1)) ^ 2)).sum
    max 0 (a / d))

/-- Modelled from the spec (7): the error taxonomy surfaced by the fitting
engine; an underdetermined solve is a distinct error kind from structurally
invalid input, so callers can tell "bad input" from "bad model state". -/
inductive FitError where
  | underdetermined
  | invalidInput
deriving DecidableEq

/-- Modelled from the spec (4.1 edge-case policy): the minimum number of
2D-3D correspondences below which the orthographic camera solve is
underdetermined (four point pairs determine an affine camera). -/
def min_number_of_correspondences : Nat := 4

/-- Modelled from the spec (4.1, one iteration of the alternating
minimization, looped): build the iteration's correspondence set (interior
plus contour), fail the run as underdetermined if too few exist, estimate
the camera, then the shape coefficients, then the blendshape weights, then
recompute the mesh and recurse until the iteration budget is exhausted. -/
def fit_loop {n k : Nat} (model : PcaModel n k)
    (blendshapes : List (Blendshape n)) (landmarks : List Landmark)
    (topology : EdgeTopology) (contour : ContourLandmarks)
    (model_contour : ModelContour) (lambda : ℚ)
    (interior : List Correspondence) :
    Nat → RenderingParameters → (Fin k → ℚ) → List ℚ →
      Except FitError ((Fin n → ℚ) × RenderingParameters)
  | 0, cam, c, w => .ok (current_shape model blendshapes c w, cam)
  | iters + 1, cam, c, w =>
    let shape := current_shape model blendshapes c w
    let corr := interior ++ contour_correspondences shape model.tvi cam topology
      model_contour contour landmarks
    if corr.length < min_number_of_correspondences then .error .underdetermined
    else
      let corr3 := corr.map (fun p => (p.1, shape_vertex shape p.2))
      let cam2 := estimate_camera corr3
      let c2 := estimate_shape_coefficients model cam2 corr lambda
      let w2 := estimate_blendshape_weights blendshapes cam2 (draw_sample model c2) corr
      fit_loop model blendshapes landmarks topology contour model_contour lambda
        interior iters cam2 c2 w2

/-- Modelled from the spec: `fitting::fit_shape_and_pose` (4.1) — build the
interior correspondences from the landmark mapper, fail as underdetermined
when fewer than the minimum exist, estimate the initial camera from them on
the mean mesh, then run the alternating iteration loop; the returned mesh is
generated purely from the final coefficient vectors and the returned
rendering parameters are those of the final camera estimate. -/
def fit_shape_and_pose {n k : Nat} (model : PcaModel n k)
    (blendshapes : List (Blendshape n)) (landmarks : List Landmark)
    (mapper : LandmarkMapper) (width height : Nat) (topology : EdgeTopology)
    (contour : ContourLandmarks) (model_contour : ModelContour)
    (iterations : Nat) (lambda : ℚ) :
    Except FitError ((Fin n → ℚ) × RenderingParameters) :=
  let interior := interior_correspondences mapper contour landmarks
  if interior.length < min_number_of_correspondences then .error .underdetermined
  else
    let shape0 := draw_sample model (fun _ => 0)
    let cam0 := estimate_camera (interior.map (fun p => (p.1, shape_vertex shape0 p.2)))
    fit_loop model blendshapes landmarks topology contour model_contour lambda
      interior iterations cam0 (fun _ => 0) (blendshapes.map (fun _ => 0))

/-- C5: with too few landmarks (e.g. only 2), fewer than the minimum
required correspondences can exist, and `fit_shape_and_pose` reports the
underdetermined-solve failure as the distinct error kind
`FitError.underdetermined` — it returns no mesh, partial or degenerate. -/
theorem fit_underdetermined_on_two_landmarks {n k : Nat} (model : PcaModel n k)
    (blendshapes : List (Blendshape n)) (landmarks : List Landmark)
    (mapper : LandmarkMapper) (width height : Nat) (topology : EdgeTopology)
    (contour : ContourLandmarks) (model_contour : ModelContour)
    (iterations : Nat) (lambda : ℚ) (h : landmarks.length ≤ 2) :
    fit_shape_and_pose model blendshapes landmarks mapper width height topology
      contour model_contour iterations lambda = .error .underdetermined := by
  have hle : (interior_correspondences mapper contour landmarks).length
      ≤ landmarks.length := List.length_filterMap_le _ _
  simp only [fit_shape_and_pose]
  rw [if_pos (by simp only [min_number_of_correspondences]; omega)]

/-- A trivial concrete morphable model with 1 vertex and 1 basis column. -/
def modelW : PcaModel 3 1 :=
  { mean := fun _ => 0, basis := fun _ _ => 0, variance := fun _ => 1, tvi := [] }

/-- C5 (witness): the underdetermined-failure theorem applied to a concrete
run with exactly two landmarks. -/
theorem fit_underdetermined_witness :
    fit_shape_and_pose modelW [] [⟨"1", ⟨0, 0⟩⟩, ⟨"2", ⟨1, 1⟩⟩] [("1", 0)]
      100 100 [] ⟨[], []⟩ ⟨[], []⟩ 5 30 = .error .underdetermined :=
  fit_underdetermined_on_two_landmarks modelW [] [⟨"1", ⟨0, 0⟩⟩, ⟨"2", ⟨1, 1⟩⟩]
    [("1", 0)] 100 100 [] ⟨[], []⟩ ⟨[], []⟩ 5 30 (by simp)

theorem interior_correspondences_skip (mapper : LandmarkMapper)
    (contour : ContourLandmarks) (pre post : List Landmark) (lm : Landmark)
    (hmap : convert mapper lm.name = none) :
    interior_correspondences mapper contour (pre ++ lm :: post)
      = interior_correspondences mapper contour (pre ++ post) := by
  simp only [interior_correspondences, List.filterMap_append]
  rw [List.filterMap_cons_none]
  rw [hmap]
  split <;> rfl

theorem contour_correspondences_skip {n : Nat} (shape : Fin n → ℚ)
    (tvi : List Triangle) (cam : RenderingParameters) (topology : EdgeTopology)
    (model_contour : ModelContour) (contour : ContourLandmarks)
    (pre post : List Landmark) (lm : Landmark)
    (hcl : is_contour_landmark contour lm.name = false) :
    contour_correspondences shape tvi cam topology model_contour contour
        (pre ++ lm :: post)
      = contour_correspondences shape tvi cam topology model_contour contour
        (pre ++ post) := by
  simp only [is_contour_landmark, Bool.or_eq_false_iff] at hcl
  simp only [contour_correspondences, List.filterMap_append]
  rw [List.filterMap_cons_none]
  rw [hcl.1, hcl.2]
  rfl

theorem fit_loop_skip {n k : Nat} (model : PcaModel n k)
    (blendshapes : List (Blendshape n)) (topology : EdgeTopology)
    (contour : ContourLandmarks) (model_contour : ModelContour) (lambda : ℚ)
    (interior : List Correspondence) (pre post : List Landmark) (lm : Landmark)
    (hcl : is_contour_landmark contour lm.name = false) :
    ∀ (iterations : Nat) (cam : RenderingParameters) (c : Fin k → ℚ) (w : List ℚ),
      fit_loop model blendshapes (pre ++ lm :: post) topology contour model_contour
        lambda interior iterations cam c w
      = fit_loop model blendshapes (pre ++ post) topology contour model_contour
        lambda interior iterations cam c w := by
  intro iterations
  induction iterations with
  | zero => intro cam c w; rfl
  | succ m ih =>
    intro cam c w
    simp only [fit_loop]
    rw [contour_correspondences_skip (current_shape model blendshapes c w)
      model.tvi cam topology model_contour contour pre post lm hcl]
    split
    · rfl
    · exact ih _ _ _

/-- C6 (counterexample): the concrete flattened shape of four vertices
(0,0,0), (0,2,0), (1,1,0), (-1,1,0). -/
def shapeC6 : Fin 12 → ℚ :=
  fun i => ([0, 0, 0, 0, 2, 0, 1, 1, 0, -1, 1, 0] : List ℚ).getD i.val 0

/-- Two triangles sharing the edge (0,1): face 0 is back-facing and face 1
front-facing under the identity orthographic camera, so edge (0,1) is an
occluding edge and vertices 0 and 1 are silhouette vertices. -/
def tviC6 : List Triangle := [(0, 1, 2), (3, 0, 1)]

/-- The edge topology of `tviC6`. -/
def topoC6 : EdgeTopology :=
  [⟨0, 1, [0, 1]⟩, ⟨0, 2, [0]⟩, ⟨1, 2, [0]⟩, ⟨0, 3, [1]⟩, ⟨1, 3, [1]⟩]

/-- C6 (counterexample): the claim fails as stated.  The landmark "lc" has
no entry in the (empty) landmark mapper — the lookup returns "no mapping" —
yet it is not skipped during fitting: being flagged as a left contour
landmark, the contour-correspondence stage of the fitting iteration matches
it to silhouette candidate vertex 1 and it contributes the correspondence
((0,2), 1). -/
theorem unmapped_contour_landmark_contributes :
    convert ([] : LandmarkMapper) "lc" = none ∧
    contour_correspondences shapeC6 tviC6 ⟨1, 0, 0⟩ topoC6 ⟨[1], []⟩ ⟨["lc"], []⟩
      [⟨"lc", ⟨0, 2⟩⟩] = [(⟨0, 2⟩, 1)] := by
  constructor
  · rfl
  · norm_num [contour_correspondences, closest_silhouette_candidate,
      silhouette_vertices, occluding_edge, face_front_facing, triangle_at,
      shapeC6, tviC6, topoC6, project_ortho, shape_vertex, coord,
      are_vertices_ccw_in_screen_space, signed_area, dist2, List.filterMap,
      List.filter, List.contains, List.flatMap]

/-- C6 (amended): for every landmark whose identifier has no entry in the
LandmarkMapper and is not flagged as a contour landmark, the lookup returns
"no mapping" (`none`) and the landmark is silently skipped during fitting:
it contributes no correspondence and raises no error, and the whole fit
proceeds exactly as if the landmark were absent.  (A contour-flagged
landmark is matched through the contour search instead, whether mapped or
not.) -/
theorem fit_skips_unmapped_noncontour_landmark {n k : Nat}
    (model : PcaModel n k) (blendshapes : List (Blendshape n))
    (pre post : List Landmark) (lm : Landmark) (mapper : LandmarkMapper)
    (width height : Nat) (topology : EdgeTopology) (contour : ContourLandmarks)
    (model_contour : ModelContour) (iterations : Nat) (lambda : ℚ)
    (hmap : convert mapper lm.name = none)
    (hcl : is_contour_landmark contour lm.name = false) :
    fit_shape_and_pose model blendshapes (pre ++ lm :: post) mapper width height
      topology contour model_contour iterations lambda
    = fit_shape_and_pose model blendshapes (pre ++ post) mapper width height
      topology contour model_contour iterations lambda := by
  simp only [fit_shape_and_pose]
  rw [interior_correspondences_skip mapper contour pre post lm hmap]
  split
  · rfl
  · exact fit_loop_skip model blendshapes topology contour model_contour lambda
      _ pre post lm hcl iterations _ _ _

/-- C6 (witness): the amended skip theorem applied to a concrete run — the
unmapped non-contour landmark "xx" placed between two mapped landmarks
changes nothing about the fit. -/
theorem fit_skips_unmapped_noncontour_landmark_witness :
    fit_shape_and_pose modelW [] ([⟨"1", ⟨0, 0⟩⟩] ++ ⟨"xx", ⟨5, 5⟩⟩ :: [⟨"2", ⟨1, 1⟩⟩])
      [("1", 0), ("2", 0)] 100 100 [] ⟨[], []⟩ ⟨[], []⟩ 5 30
    = fit_shape_and_pose modelW [] ([⟨"1", ⟨0, 0⟩⟩] ++ [⟨"2", ⟨1, 1⟩⟩])
      [("1", 0), ("2", 0)] 100 100 [] ⟨[], []⟩ ⟨[], []⟩ 5 30 :=
  fit_skips_unmapped_noncontour_landmark modelW [] [⟨"1", ⟨0, 0⟩⟩] [⟨"2", ⟨1, 1⟩⟩]
    ⟨"xx", ⟨5, 5⟩⟩ [("1", 0), ("2", 0)] 100 100 [] ⟨[], []⟩ ⟨[], []⟩ 5 30
    (by rfl) (by rfl)

/-- The full input record of one fitting run (all the arguments of
`fit_shape_and_pose`). -/
structure FitInputs (n k : Nat) where
  model : PcaModel n k
  blendshapes : List (Blendshape n)
  landmarks : List Landmark
  mapper : LandmarkMapper
  width : Nat
  height : Nat
  topology : EdgeTopology
  contour : ContourLandmarks
  model_contour : ModelContour
  iterations : Nat
  lambda : ℚ

/-- One fitting run on an input record. -/
def run_fit {n k : Nat} (inp : FitInputs n k) :
    Except FitError ((Fin n → ℚ) × RenderingParameters) :=
  fit_shape_and_pose inp.model inp.blendshapes inp.landmarks inp.mapper
    inp.width inp.height inp.topology inp.contour inp.model_contour
    inp.iterations inp.lambda

/-- C8: fitting is deterministic — two runs of `fit_shape_and_pose` on
identical inputs (model, blendshapes, landmarks, mapper, image dimensions,
edge topology, contour data, iteration count, regularization) produce
identical (bit-for-bit in this exact rational model) mesh and
rendering-parameter outputs: the fitting engine is a pure function of its
inputs, with no hidden state or randomness. -/
theorem fit_shape_and_pose_deterministic {n k : Nat}
    (inp1 inp2 : FitInputs n k) (h : inp1 = inp2) :
    run_fit inp1 = run_fit inp2 := by
  rw [h]

/-- A concrete full input record. -/
def fitInputsW : FitInputs 3 1 :=
  { model := modelW, blendshapes := [], landmarks := [⟨"1", ⟨0, 0⟩⟩],
    mapper := [("1", 0)], width := 100, height := 100, topology := [],
    contour := ⟨[], []⟩, model_contour := ⟨[], []⟩, iterations := 1,
    lambda := 30 }

/-- C8 (witness): determinism applied to the concrete input record. -/
theorem fit_shape_and_pose_deterministic_witness :
    run_fit fitInputsW = run_fit fitInputsW :=
  fit_shape_and_pose_deterministic fitInputsW fitInputsW rfl

end Eos
